import Mathlib

/-!
Verification of the polling/caching/update-coalescing core of the
homebridge-daikin-oneplus bridge (src/daikinapi.ts) and the clamping
characteristic handlers of its platform adapters (src/platformAQI.ts,
src/platformHumidity.ts).

The TypeScript class `DaikinApi` is embedded shallowly: the mutable class
fields become an explicit `ApiState` record, each method becomes a pure
function from state (plus a clock value and the outcome of any network
call, supplied as an oracle argument) to state, and every outbound HTTP
call is recorded in an explicit list of `IssuedRequest`s so that theorems
can talk about which requests a method issues and what credential they
carry.  JavaScript objects whose fields may be absent at runtime are
modelled with `Option` fields; JavaScript truthiness tests are modelled
explicitly where the source relies on them.
-/

namespace DaikinOnePlus

/-- Delay applied after a write before polling again (source constant
`DAIKIN_DEVICE_WRITE_DELAY_MS = 15 * 1000`). -/
def DAIKIN_DEVICE_WRITE_DELAY_MS : Int := 15 * 1000

/-- Background refresh interval (source constant
`DAIKIN_DEVICE_BACKGROUND_REFRESH_MS = 180 * 1000`). -/
def DAIKIN_DEVICE_BACKGROUND_REFRESH_MS : Int := 180 * 1000

/-- Foreground refresh interval (source constant
`DAIKIN_DEVICE_FOREGROUND_REFRESH_MS = 10 * 1000`). -/
def DAIKIN_DEVICE_FOREGROUND_REFRESH_MS : Int := 10 * 1000

def DAIKIN_API_LOGIN_URL : String := "https://api.daikinskyport.com/users/auth/login"

def DAIKIN_API_DEVICES_URL : String := "https://api.daikinskyport.com/devices"

def DAIKIN_API_TOKEN_URL : String := "https://api.daikinskyport.com/users/auth/token"

/-- Source `getDeviceUrl`. -/
def getDeviceUrl (deviceId : String) : String :=
  "https://api.daikinskyport.com/deviceData/" ++ deviceId

/-- Source enum `ThermostatMode` (OFF, HEAT, COOL, AUTO, EMERGENCY_HEAT).
`unknownMode` stands for any numeric mode value outside the enum, which the
source handles through the `default` branch of its mode switches. -/
inductive ThermostatMode
  | off
  | heat
  | cool
  | auto
  | emergencyHeat
  | unknownMode
deriving DecidableEq, Repr

/-- Token response from the Daikin authentication API (source interface
`DaikinTokenResponse`). -/
structure DaikinTokenResponse where
  accessToken : String
  accessTokenExpiresIn : Int
  refreshToken : String
deriving DecidableEq, Repr

/-- Device state / update payload.  At runtime both the cached device data
and the partial update objects (`ThermostatUpdate`) are plain JavaScript
objects whose fields may be absent, so every attribute is an `Option`.
Only the attributes touched by the operations verified here are modelled;
the remaining read-only attributes of the wire `ThermostatData` play no
role in any claim. -/
structure ThermostatData where
  mode : Option ThermostatMode
  hspHome : Option Int
  hspActive : Option Int
  cspHome : Option Int
  cspActive : Option Int
  schedOverride : Option Int
  schedEnabled : Option Bool
  geofencingAway : Option Bool
  oneCleanFanActive : Option Bool
  fanCirculate : Option Int
  fanCirculateSpeed : Option Int
  units : Option Int
  humSP : Option Int
  humIndoor : Option Int
  humOutdoor : Option Int
  aqIndoorValue : Option Int
  aqOutdoorValue : Option Int
deriving DecidableEq, Repr

/-- The empty partial object `{}`. -/
def ThermostatData.empty : ThermostatData :=
  ⟨none, none, none, none, none, none, none, none, none, none, none, none,
   none, none, none, none, none⟩

/-- JavaScript object spread `{...old, ...upd}`: a field present in `upd`
overrides the field of `old`. -/
def ThermostatData.merge (old upd : ThermostatData) : ThermostatData where
  mode := upd.mode.rec old.mode (fun v => some v)
  hspHome := upd.hspHome.rec old.hspHome (fun v => some v)
  hspActive := upd.hspActive.rec old.hspActive (fun v => some v)
  cspHome := upd.cspHome.rec old.cspHome (fun v => some v)
  cspActive := upd.cspActive.rec old.cspActive (fun v => some v)
  schedOverride := upd.schedOverride.rec old.schedOverride (fun v => some v)
  schedEnabled := upd.schedEnabled.rec old.schedEnabled (fun v => some v)
  geofencingAway := upd.geofencingAway.rec old.geofencingAway (fun v => some v)
  oneCleanFanActive := upd.oneCleanFanActive.rec old.oneCleanFanActive (fun v => some v)
  fanCirculate := upd.fanCirculate.rec old.fanCirculate (fun v => some v)
  fanCirculateSpeed := upd.fanCirculateSpeed.rec old.fanCirculateSpeed (fun v => some v)
  units := upd.units.rec old.units (fun v => some v)
  humSP := upd.humSP.rec old.humSP (fun v => some v)
  humIndoor := upd.humIndoor.rec old.humIndoor (fun v => some v)
  humOutdoor := upd.humOutdoor.rec old.humOutdoor (fun v => some v)
  aqIndoorValue := upd.aqIndoorValue.rec old.aqIndoorValue (fun v => some v)
  aqOutdoorValue := upd.aqOutdoorValue.rec old.aqOutdoorValue (fun v => some v)

/-- Per-device accumulator for AUTO-mode thresholds (source field
`_pendingThresholds`, value type `{ heat?: number; cool?: number }`). -/
structure PendingThreshold where
  heat : Option Int
  cool : Option Int
deriving DecidableEq, Repr

/-- HTTP method of an issued request. -/
inductive HttpMethod
  | get
  | post
  | put
deriving DecidableEq, Repr

/-- Record of one outbound HTTP request: its method, URI, the bearer
credential it carries (the access token together with the expiry instant
stored for it at the moment the request is issued; `none` for the
unauthenticated login/refresh endpoints) and, for PUT requests, the JSON
body. -/
structure IssuedRequest where
  method : HttpMethod
  uri : String
  bearer : Option (String × Int)
  putBody : Option ThermostatData
deriving DecidableEq, Repr

/-- Outcome of an upstream PUT, supplied as an oracle: 2xx response,
non-2xx response, or a thrown transport error. -/
inductive PutOutcome
  | ok
  | httpError
  | transportError
deriving DecidableEq, Repr

/-- The mutable fields of the `DaikinApi` class.  The device cache
(`Map<string, Thermostat>`) is an insertion-ordered association list from
device id to the device's optional data snapshot; the pending-threshold
map is a lookup function; the remaining fields mirror the class fields of
the same names (leading underscores dropped). -/
structure ApiState where
  token : Option DaikinTokenResponse
  tokenExpiration : Int
  devices : List (String × Option ThermostatData)
  initDone : Bool
  lastUpdateTimeMs : Int
  nextUpdateTimeMs : Int
  noUpdateBeforeMs : Int
  lastWriteStartTimeMs : Int
  lastWriteFinishTimeMs : Int
  lastReadStartTimeMs : Int
  lastReadFinishTimeMs : Int
  pendingThresholds : String → Option PendingThreshold

/-- Source `this._devices.get(deviceId)` (`undefined` when absent). -/
def getDevice (devs : List (String × Option ThermostatData)) (deviceId : String) :
    Option (String × Option ThermostatData) :=
  devs.find? (fun p => p.1 == deviceId)

/-- Source `this._devices.get(deviceId)?.data`. -/
def dataOf (devs : List (String × Option ThermostatData)) (deviceId : String) :
    Option ThermostatData :=
  (getDevice devs deviceId).bind (fun p => p.2)

/-- Source `_updateCache`: shallow-merge `upd` into the device's cached
data (`cachedDevice.data = {...(cachedDevice.data ?? {}), ...upd}`); when
the device id is absent from the map the update is logged and dropped. -/
def updateCacheDevices (devs : List (String × Option ThermostatData))
    (deviceId : String) (upd : ThermostatData) :
    List (String × Option ThermostatData) :=
  devs.map (fun p =>
    if p.1 == deviceId then
      (p.1, some (ThermostatData.merge (p.2.getD ThermostatData.empty) upd))
    else p)

/-- JavaScript truthiness of a `number | undefined` value (`undefined` and
`0` are falsy). -/
def truthy : Option Int → Bool
  | none => false
  | some v => v != 0

/-- Source `_updateIn`: clear any pending timer, arm the single timer to
fire in `nextUpdateMs`, and record `_nextUpdateTimeMs`. -/
def updateIn (s : ApiState) (now nextUpdateMs : Int) : ApiState :=
  { s with nextUpdateTimeMs := now + nextUpdateMs }

/-- Source `_scheduleAsap`.  The `blockUntilMs` argument is ignored (only
logged) by the source, so it is not a parameter here. -/
def scheduleAsap (s : ApiState) (now : Int) : ApiState :=
  let sinceLastUpdateMs := now - s.lastUpdateTimeMs
  let minUntilNextUpdateMs := s.noUpdateBeforeMs - now
  if sinceLastUpdateMs > DAIKIN_DEVICE_FOREGROUND_REFRESH_MS then
    if minUntilNextUpdateMs ≤ 0 then
      updateIn s now 0
    else
      updateIn s now minUntilNextUpdateMs
  else
    let updateInMs := DAIKIN_DEVICE_FOREGROUND_REFRESH_MS - sinceLastUpdateMs
    updateIn s now (max minUntilNextUpdateMs updateInMs)

/-- Resolution of the `blockUntilMs` argument performed at the top of the
source `_scheduleFuture`: yields the effective `(blockUntilMs,
nextUpdateInMs)` pair.  A missing argument and `0` are both falsy in the
source's `if (!blockUntilMs)` test. -/
def resolveBlockUntil (blockUntilMs : Option Int) : Int × Int :=
  let b := blockUntilMs.getD 0
  if b = 0 then
    (DAIKIN_DEVICE_FOREGROUND_REFRESH_MS, DAIKIN_DEVICE_BACKGROUND_REFRESH_MS)
  else if b < DAIKIN_DEVICE_FOREGROUND_REFRESH_MS then
    (DAIKIN_DEVICE_FOREGROUND_REFRESH_MS, DAIKIN_DEVICE_FOREGROUND_REFRESH_MS)
  else if b = DAIKIN_DEVICE_WRITE_DELAY_MS then
    (b, DAIKIN_DEVICE_WRITE_DELAY_MS)
  else
    (b, DAIKIN_DEVICE_BACKGROUND_REFRESH_MS)

/-- Source `_scheduleFuture`: commit a new `_noUpdateBeforeMs` floor and
rearm the timer unless the currently scheduled run is already at least
`blockUntilMs` away. -/
def scheduleFuture (s : ApiState) (now : Int) (blockUntilMs : Option Int) : ApiState :=
  let resolved := resolveBlockUntil blockUntilMs
  let b := resolved.1
  let nextUpdateInMs := resolved.2
  let s1 := { s with noUpdateBeforeMs := now + b }
  let scheduledRunInMs := s1.nextUpdateTimeMs - now
  if s1.nextUpdateTimeMs = -1 ∨ b > scheduledRunInMs then
    updateIn s1 now (if b > nextUpdateInMs then b else nextUpdateInMs)
  else
    s1

/-- Source `_scheduleUpdate` dispatcher. -/
def scheduleUpdate (s : ApiState) (now : Int) (blockUntilMs : Option Int)
    (asap : Bool) : ApiState :=
  if asap then scheduleAsap s now else scheduleFuture s now blockUntilMs

/-- Source `updateNow`. -/
def updateNow (s : ApiState) (now : Int) : ApiState :=
  scheduleUpdate s now none true

/-- Source `setToken`: replace the credential and compute its expiry with
a safety margin of twice the background refresh interval (the source does
this with `Date.setSeconds`; expressed here directly in milliseconds). -/
def setToken (s : ApiState) (now : Int) (t : DaikinTokenResponse) : ApiState :=
  { s with
    token := some t
    tokenExpiration :=
      now + (t.accessTokenExpiresIn - 2 * (DAIKIN_DEVICE_BACKGROUND_REFRESH_MS / 1000)) * 1000 }

/-- The unauthenticated login POST issued by `getToken`. -/
def loginRequest : IssuedRequest :=
  ⟨HttpMethod.post, DAIKIN_API_LOGIN_URL, none, none⟩

/-- The unauthenticated refresh POST issued by `refreshToken`. -/
def refreshRequest : IssuedRequest :=
  ⟨HttpMethod.post, DAIKIN_API_TOKEN_URL, none, none⟩

/-- Source `getToken`: always issues the login POST; on success
(`loginResult = some t`) installs the new token, on failure leaves the
state unchanged. -/
def getToken (s : ApiState) (now : Int) (loginResult : Option DaikinTokenResponse) :
    ApiState × List IssuedRequest :=
  match loginResult with
  | some t => (setToken s now t, [loginRequest])
  | none => (s, [loginRequest])

/-- Source `refreshToken`: with no token or no usable refresh token fall
back to `getToken`; otherwise issue the refresh POST and install the new
token on success. -/
def refreshToken (s : ApiState) (now : Int)
    (loginResult refreshResult : Option DaikinTokenResponse) :
    ApiState × List IssuedRequest :=
  match s.token with
  | none => getToken s now loginResult
  | some tok =>
    if tok.refreshToken = "" then
      getToken s now loginResult
    else
      match refreshResult with
      | some t => (setToken s now t, [refreshRequest])
      | none => (s, [refreshRequest])

/-- Source `getRequest`: refresh the token first when the stored expiry
has passed, abort with `undefined` when no token exists afterwards, and
otherwise issue the authenticated GET.  `fetchResult = none` stands for a
transport error or a non-2xx response (both yield `undefined`). -/
def getRequest {α : Type} (s : ApiState) (now : Int) (uri : String)
    (loginResult refreshResult : Option DaikinTokenResponse)
    (fetchResult : Option α) :
    ApiState × Option α × List IssuedRequest :=
  let step :=
    if s.tokenExpiration ≤ now then
      refreshToken s now loginResult refreshResult
    else
      (s, [])
  let s1 := step.1
  match s1.token with
  | none => (s1, none, step.2)
  | some tok =>
    (s1, fetchResult,
      step.2 ++ [⟨HttpMethod.get, uri, some (tok.accessToken, s1.tokenExpiration), none⟩])

/-- Source `putRequest`: record the write timestamps, abort with `false`
when no token is stored (without issuing anything), and otherwise issue
the authenticated PUT carrying the stored access token.  On a 2xx
response the request body is merged into the cache and the scheduler is
re-entered with the write-settle delay; on a non-2xx response or a
transport error the method returns `false` and touches nothing besides
the write timestamps.  No token-expiry check is performed. -/
def putRequest (s : ApiState) (now : Int) (deviceId : String)
    (requestData : ThermostatData) (outcome : PutOutcome) :
    ApiState × Bool × List IssuedRequest :=
  let s0 := { s with lastWriteStartTimeMs := now, lastWriteFinishTimeMs := -1 }
  match s0.token with
  | none => (s0, false, [])
  | some tok =>
    let req : IssuedRequest :=
      ⟨HttpMethod.put, getDeviceUrl deviceId,
        some (tok.accessToken, s0.tokenExpiration), some requestData⟩
    match outcome with
    | PutOutcome.ok =>
      let s1 := { s0 with lastWriteFinishTimeMs := now }
      let s2 := { s1 with devices := updateCacheDevices s1.devices deviceId requestData }
      (scheduleUpdate s2 now (some DAIKIN_DEVICE_WRITE_DELAY_MS) false, true, [req])
    | _ =>
      ({ s0 with lastWriteFinishTimeMs := now }, false, [req])

/-- Tail of `setTargetTemps` shared by every mode branch: add the
schedule-override flag when the cached state has `schedEnabled` truthy,
issue the PUT, and on success merge the derived cache update. -/
def finishTargetTemps (s : ApiState) (now : Int) (deviceId : String)
    (deviceData apiData cacheUpdate : ThermostatData) (outcome : PutOutcome) :
    ApiState × Bool × List IssuedRequest :=
  let apiData' :=
    if deviceData.schedEnabled = some true then
      { apiData with schedOverride := some 1 }
    else apiData
  let cacheUpdate' :=
    if deviceData.schedEnabled = some true then
      { cacheUpdate with schedOverride := some 1 }
    else cacheUpdate
  let r := putRequest s now deviceId apiData' outcome
  if r.2.1 then
    ({ r.1 with devices := updateCacheDevices r.1.devices deviceId cacheUpdate' },
      true, r.2.2)
  else
    (r.1, false, r.2.2)

/-- Source `setTargetTemps`: validate against the cached mode, accumulate
AUTO-mode thresholds per device until both are present, and only then
issue a single combined PUT. -/
def setTargetTemps (s : ApiState) (now : Int) (deviceId : String)
    (targetTemp heatThreshold coolThreshold : Option Int) (outcome : PutOutcome) :
    ApiState × Bool × List IssuedRequest :=
  match dataOf s.devices deviceId with
  | none => (s, false, [])
  | some deviceData =>
    match deviceData.mode with
    | some ThermostatMode.heat | some ThermostatMode.emergencyHeat =>
      match targetTemp with
      | none => (s, true, [])
      | some t =>
        if t = 0 then (s, true, [])
        else
          finishTargetTemps s now deviceId deviceData
            { ThermostatData.empty with hspHome := some t }
            { ThermostatData.empty with hspHome := some t, hspActive := some t }
            outcome
    | some ThermostatMode.cool =>
      match targetTemp with
      | none => (s, true, [])
      | some t =>
        if t = 0 then (s, true, [])
        else
          finishTargetTemps s now deviceId deviceData
            { ThermostatData.empty with cspHome := some t }
            { ThermostatData.empty with cspHome := some t, cspActive := some t }
            outcome
    | some ThermostatMode.off => (s, true, [])
    | some ThermostatMode.auto =>
      if truthy targetTemp then (s, true, [])
      else
        let pending0 := (s.pendingThresholds deviceId).getD ⟨none, none⟩
        let pending1 :=
          match coolThreshold with
          | some c => { pending0 with cool := some c }
          | none => pending0
        let pending2 :=
          match heatThreshold with
          | some h => { pending1 with heat := some h }
          | none => pending1
        match pending2.heat, pending2.cool with
        | some ph, some pc =>
          let s1 := { s with pendingThresholds :=
            fun d => if d == deviceId then none else s.pendingThresholds d }
          finishTargetTemps s1 now deviceId deviceData
            { ThermostatData.empty with hspHome := some ph, cspHome := some pc }
            { ThermostatData.empty with
                hspHome := some ph, hspActive := some ph,
                cspHome := some pc, cspActive := some pc }
            outcome
        | _, _ =>
          ({ s with pendingThresholds :=
              fun d => if d == deviceId then some pending2 else s.pendingThresholds d },
            true, [])
    | _ => (s, false, [])

/-- Source `setTargetState`: updates the cached mode immediately (so that
subsequent commands see the new mode) and then issues the PUT. -/
def setTargetState (s : ApiState) (now : Int) (deviceId : String)
    (requestedState : ThermostatMode) (outcome : PutOutcome) :
    ApiState × Bool × List IssuedRequest :=
  let requestedData := { ThermostatData.empty with mode := some requestedState }
  let s1 := { s with devices := updateCacheDevices s.devices deviceId requestedData }
  putRequest s1 now deviceId requestedData outcome

/-- Source `setOneCleanFanActive`. -/
def setOneCleanFanActive (s : ApiState) (now : Int) (deviceId : String)
    (requestedState : Bool) (outcome : PutOutcome) :
    ApiState × Bool × List IssuedRequest :=
  putRequest s now deviceId
    { ThermostatData.empty with oneCleanFanActive := some requestedState } outcome

/-- Source `setCirculateAirFanActive`. -/
def setCirculateAirFanActive (s : ApiState) (now : Int) (deviceId : String)
    (requestedState : Bool) (outcome : PutOutcome) :
    ApiState × Bool × List IssuedRequest :=
  putRequest s now deviceId
    { ThermostatData.empty with fanCirculate := some (if requestedState then 1 else 0) }
    outcome

/-- Source `setCirculateAirFanSpeed`. -/
def setCirculateAirFanSpeed (s : ApiState) (now : Int) (deviceId : String)
    (requestedSpeed : Int) (outcome : PutOutcome) :
    ApiState × Bool × List IssuedRequest :=
  if requestedSpeed = -1 then
    putRequest s now deviceId
      { ThermostatData.empty with fanCirculate := some 0, fanCirculateSpeed := some 1 }
      outcome
  else
    putRequest s now deviceId
      { ThermostatData.empty with fanCirculateSpeed := some requestedSpeed } outcome

/-- Source `setDisplayUnits`. -/
def setDisplayUnits (s : ApiState) (now : Int) (deviceId : String)
    (requestedUnits : Int) (outcome : PutOutcome) :
    ApiState × Bool × List IssuedRequest :=
  putRequest s now deviceId
    { ThermostatData.empty with units := some requestedUnits } outcome

/-- Source `setTargetHumidity`. -/
def setTargetHumidity (s : ApiState) (now : Int) (deviceId : String)
    (requestedHumidity : Int) (outcome : PutOutcome) :
    ApiState × Bool × List IssuedRequest :=
  putRequest s now deviceId
    { ThermostatData.empty with humSP := some requestedHumidity } outcome

/-- Source `setScheduleState`. -/
def setScheduleState (s : ApiState) (now : Int) (deviceId : String)
    (requestedState : Bool) (outcome : PutOutcome) :
    ApiState × Bool × List IssuedRequest :=
  if requestedState then
    putRequest s now deviceId
      { ThermostatData.empty with
          geofencingAway := some false, schedOverride := some 0,
          schedEnabled := some true } outcome
  else
    putRequest s now deviceId
      { ThermostatData.empty with schedEnabled := some false } outcome

/-- Source `setAwayState`. -/
def setAwayState (s : ApiState) (now : Int) (deviceId : String)
    (requestedState enableSchedule : Bool) (outcome : PutOutcome) :
    ApiState × Bool × List IssuedRequest :=
  if requestedState then
    putRequest s now deviceId
      { ThermostatData.empty with geofencingAway := some true } outcome
  else if enableSchedule then
    putRequest s now deviceId
      { ThermostatData.empty with geofencingAway := some false, schedEnabled := some true }
      outcome
  else
    putRequest s now deviceId
      { ThermostatData.empty with geofencingAway := some false } outcome

/-- One call to any of the public setter methods of `DaikinApi`, with its
arguments. -/
inductive SetterCall
  | targetTemps (deviceId : String) (targetTemp heatThreshold coolThreshold : Option Int)
  | targetState (deviceId : String) (requestedState : ThermostatMode)
  | oneCleanFanActive (deviceId : String) (requestedState : Bool)
  | circulateAirFanActive (deviceId : String) (requestedState : Bool)
  | circulateAirFanSpeed (deviceId : String) (requestedSpeed : Int)
  | displayUnits (deviceId : String) (requestedUnits : Int)
  | targetHumidity (deviceId : String) (requestedHumidity : Int)
  | scheduleState (deviceId : String) (requestedState : Bool)
  | awayState (deviceId : String) (requestedState enableSchedule : Bool)

/-- Dispatch a `SetterCall` to the corresponding setter. -/
def runSetter (s : ApiState) (now : Int) (c : SetterCall) (outcome : PutOutcome) :
    ApiState × Bool × List IssuedRequest :=
  match c with
  | SetterCall.targetTemps d tt ht ct => setTargetTemps s now d tt ht ct outcome
  | SetterCall.targetState d m => setTargetState s now d m outcome
  | SetterCall.oneCleanFanActive d b => setOneCleanFanActive s now d b outcome
  | SetterCall.circulateAirFanActive d b => setCirculateAirFanActive s now d b outcome
  | SetterCall.circulateAirFanSpeed d v => setCirculateAirFanSpeed s now d v outcome
  | SetterCall.displayUnits d v => setDisplayUnits s now d v outcome
  | SetterCall.targetHumidity d v => setTargetHumidity s now d v outcome
  | SetterCall.scheduleState d b => setScheduleState s now d b outcome
  | SetterCall.awayState d b e => setAwayState s now d b e outcome

/-- Whether a `SetterCall` is a temperature/threshold write. -/
def SetterCall.isTargetTemps : SetterCall → Bool
  | SetterCall.targetTemps _ _ _ _ => true
  | _ => false

/-- Source `getDevices`: fetch the device list through `getRequest` and
replace the whole registry (`this._devices = new Map(...)`; a failed
fetch yields `?? []`, i.e. an empty registry). -/
def getDevicesOp (s : ApiState) (now : Int)
    (loginResult refreshResult : Option DaikinTokenResponse)
    (devicesResult : Option (List (String × Option ThermostatData))) :
    ApiState × List IssuedRequest :=
  let r := getRequest s now DAIKIN_API_DEVICES_URL loginResult refreshResult devicesResult
  ({ r.1 with devices := r.2.1.getD [] }, r.2.2)

/-- Loop body of `getData`: for each registered device fetch its data via
`getRequest`; on failure log and continue, on success merge into the
cache (and notify listeners, which carries no state here). -/
def getDataLoop (s : ApiState) (now : Int)
    (loginResult refreshResult : Option DaikinTokenResponse)
    (dataResult : String → Option ThermostatData) :
    List (String × Option ThermostatData) → ApiState × List IssuedRequest
  | [] => (s, [])
  | (deviceId, _) :: rest =>
    let r := getRequest s now (getDeviceUrl deviceId) loginResult refreshResult
      (dataResult deviceId)
    let s1 :=
      match r.2.1 with
      | none => r.1
      | some d => { r.1 with devices := updateCacheDevices r.1.devices deviceId d }
    let rec' := getDataLoop s1 now loginResult refreshResult dataResult rest
    (rec'.1, r.2.2 ++ rec'.2)

/-- Source `getData`: record the read timestamps, fetch every registered
device, then clear the next-update marker and re-enter the scheduler in
passive mode. -/
def getData (s : ApiState) (now : Int)
    (loginResult refreshResult : Option DaikinTokenResponse)
    (dataResult : String → Option ThermostatData) :
    ApiState × List IssuedRequest :=
  let s0 := { s with lastReadStartTimeMs := now, lastReadFinishTimeMs := -1 }
  let r := getDataLoop s0 now loginResult refreshResult dataResult s0.devices
  let s1 := { r.1 with lastReadFinishTimeMs := now, nextUpdateTimeMs := -1 }
  (scheduleUpdate s1 now none false, r.2)

/-- Source `Initialize`: authenticate, bail out when no token was
obtained, discover devices, bail out when none were found, perform the
first read and only then set the initialized flag.  There is no guard on
the flag itself: the whole sequence runs again on every call. -/
def apiInit (s : ApiState) (now : Int)
    (loginResult refreshResult : Option DaikinTokenResponse)
    (devicesResult : Option (List (String × Option ThermostatData)))
    (dataResult : String → Option ThermostatData) :
    ApiState × List IssuedRequest :=
  let r1 := getToken s now loginResult
  match r1.1.token with
  | none => (r1.1, r1.2)
  | some _ =>
    let r2 := getDevicesOp r1.1 now loginResult refreshResult devicesResult
    if 0 < r2.1.devices.length then
      let r3 := getData r2.1 now loginResult refreshResult dataResult
      ({ r3.1 with initDone := true }, r1.2 ++ r2.2 ++ r3.2)
    else
      (r2.1, r1.2 ++ r2.2)

/-- Source `isInitialized`. -/
def isInitDone (s : ApiState) : Bool := s.initDone

/-- Source `getCurrentHumidity`:
`this._devices.get(deviceId)?.data?.humIndoor ?? 0`. -/
def getCurrentHumidity (s : ApiState) (deviceId : String) : Int :=
  ((dataOf s.devices deviceId).bind (fun d => d.humIndoor)).getD 0

/-- Source `getOutdoorHumidity`:
`this._devices.get(deviceId)?.data?.humOutdoor ?? 0`. -/
def getOutdoorHumidity (s : ApiState) (deviceId : String) : Int :=
  ((dataOf s.devices deviceId).bind (fun d => d.humOutdoor)).getD 0

/-- Source `getAirQualityValue`: returns `0` when the device has no data,
and otherwise the raw indoor or outdoor air-quality field.  The field is
an `Option` because at runtime it may be absent from the cached object
(the TypeScript guard only checks that `data` itself exists). -/
def getAirQualityValue (s : ApiState) (deviceId : String) (forIndoor : Bool) :
    Option Int :=
  match dataOf s.devices deviceId with
  | none => some 0
  | some d => if forIndoor then d.aqIndoorValue else d.aqOutdoorValue

/-- Platform handler `DaikinOnePlusHumidity.handleHumidityGet`: reads the
humidity accessor and clamps the result into `[0, 100]`. -/
def handleHumidityGet (s : ApiState) (deviceId : String) (forIndoor : Bool) : Int :=
  let currentHumidity :=
    if forIndoor then getCurrentHumidity s deviceId else getOutdoorHumidity s deviceId
  if currentHumidity < 0 then 0
  else if currentHumidity > 100 then 100
  else currentHumidity

/-- Platform handler `DaikinOnePlusAQSensor.handleAirQualityValueGet`:
reads the air-quality accessor and clamps the result into `[0, 500]`.
An absent raw field passes the JavaScript `<`/`>` tests as false and is
returned unchanged, hence the `none` branch. -/
def handleAirQualityValueGet (s : ApiState) (deviceId : String) (forIndoor : Bool) :
    Option Int :=
  match getAirQualityValue s deviceId forIndoor with
  | none => none
  | some v => some (if v < 0 then 0 else if v > 500 then 500 else v)

/-- A concrete freshly-constructed bridge state (the field initialisers
of the `DaikinApi` class). -/
def baseState : ApiState where
  token := none
  tokenExpiration := 0
  devices := []
  initDone := false
  lastUpdateTimeMs := -1
  nextUpdateTimeMs := -1
  noUpdateBeforeMs := 0
  lastWriteStartTimeMs := -1
  lastWriteFinishTimeMs := -1
  lastReadStartTimeMs := -1
  lastReadFinishTimeMs := -1
  pendingThresholds := fun _ => none

/-- One re-entry of the refresh scheduler: an `updateNow()` call from a
consumer, or the passive re-entry performed after a completed read
(no `blockUntilMs`) or after a completed write (the write-settle delay),
each at an arbitrary clock value. -/
inductive SchedStep : ApiState → ApiState → Prop
  | updateNowCall (s : ApiState) (now : Int) : SchedStep s (updateNow s now)
  | readCompleted (s : ApiState) (now : Int) :
      SchedStep s (scheduleUpdate s now none false)
  | writeCompleted (s : ApiState) (now : Int) :
      SchedStep s (scheduleUpdate s now (some DAIKIN_DEVICE_WRITE_DELAY_MS) false)

lemma scheduleAsap_floor (s : ApiState) (now : Int) :
    (scheduleAsap s now).noUpdateBeforeMs = s.noUpdateBeforeMs := by
  unfold scheduleAsap updateIn
  dsimp only
  split
  · split <;> rfl
  · rfl

lemma scheduleAsap_next_ge (s : ApiState) (now : Int) :
    s.noUpdateBeforeMs ≤ (scheduleAsap s now).nextUpdateTimeMs := by
  unfold scheduleAsap updateIn
  dsimp only
  split
  · split
    · dsimp only
      omega
    · dsimp only
      omega
  · dsimp only
    have h := le_max_left (s.noUpdateBeforeMs - now)
      (DAIKIN_DEVICE_FOREGROUND_REFRESH_MS - (now - s.lastUpdateTimeMs))
    omega

lemma scheduleFuture_floor (s : ApiState) (now : Int) (b : Option Int) :
    (scheduleFuture s now b).noUpdateBeforeMs = now + (resolveBlockUntil b).1 := by
  unfold scheduleFuture updateIn
  dsimp only
  split <;> rfl

lemma scheduleFuture_next_ge (s : ApiState) (now : Int) (b : Option Int) :
    (scheduleFuture s now b).noUpdateBeforeMs ≤ (scheduleFuture s now b).nextUpdateTimeMs := by
  unfold scheduleFuture updateIn
  dsimp only
  split
  · split <;> dsimp only <;> omega
  · rename_i h
    simp only [not_or] at h
    dsimp only
    omega

lemma updateNow_eq (s : ApiState) (now : Int) : updateNow s now = scheduleAsap s now := rfl

lemma updateNow_keeps_bound (s : ApiState) (now t : Int)
    (h : t ≤ s.noUpdateBeforeMs) : t ≤ (updateNow s now).nextUpdateTimeMs := by
  rw [updateNow_eq]
  exact le_trans h (scheduleAsap_next_ge s now)

/-- C2: after any scheduler re-entry — an `updateNow()` call or a passive
reschedule following a completed read or write — the instant the single
pending poll timer is armed to fire (`nextUpdateTimeMs`) is never earlier
than the most recently committed `noUpdateBeforeMs` floor.  Since this
holds for every single step from an arbitrary state, it holds at every
point of any sequence of such calls. -/
theorem sched_timer_respects_floor (s s' : ApiState) (h : SchedStep s s') :
    s'.noUpdateBeforeMs ≤ s'.nextUpdateTimeMs := by
  cases h with
  | updateNowCall now =>
    rw [updateNow_eq, scheduleAsap_floor]
    exact scheduleAsap_next_ge s now
  | readCompleted now =>
    exact scheduleFuture_next_ge s now none
  | writeCompleted now =>
    exact scheduleFuture_next_ge s now (some DAIKIN_DEVICE_WRITE_DELAY_MS)

/-- Witness for C2 at a concrete state and step. -/
theorem sched_timer_respects_floor_witness :
    (updateNow baseState 0).noUpdateBeforeMs ≤ (updateNow baseState 0).nextUpdateTimeMs :=
  sched_timer_respects_floor baseState (updateNow baseState 0)
    (SchedStep.updateNowCall baseState 0)

lemma resolveBlockUntil_writeDelay :
    resolveBlockUntil (some DAIKIN_DEVICE_WRITE_DELAY_MS) =
      (DAIKIN_DEVICE_WRITE_DELAY_MS, DAIKIN_DEVICE_WRITE_DELAY_MS) := by
  unfold resolveBlockUntil DAIKIN_DEVICE_WRITE_DELAY_MS DAIKIN_DEVICE_FOREGROUND_REFRESH_MS
  norm_num

/-- C3: whenever `putRequest` returns `true`, the next scheduled poll is
armed no earlier than the write time plus the 15000 ms write-settle
delay, and the bound survives an `updateNow()` issued at any moment right
after the write completes. -/
theorem write_settle_bound (s : ApiState) (now : Int) (deviceId : String)
    (body : ThermostatData) (o : PutOutcome) (now2 : Int)
    (h : (putRequest s now deviceId body o).2.1 = true) :
    now + DAIKIN_DEVICE_WRITE_DELAY_MS ≤
      (putRequest s now deviceId body o).1.nextUpdateTimeMs ∧
    now + DAIKIN_DEVICE_WRITE_DELAY_MS ≤
      (updateNow (putRequest s now deviceId body o).1 now2).nextUpdateTimeMs := by
  have hbound : ∀ (x : ApiState),
      now + DAIKIN_DEVICE_WRITE_DELAY_MS ≤
        (scheduleFuture x now (some DAIKIN_DEVICE_WRITE_DELAY_MS)).nextUpdateTimeMs ∧
      (scheduleFuture x now (some DAIKIN_DEVICE_WRITE_DELAY_MS)).noUpdateBeforeMs =
        now + DAIKIN_DEVICE_WRITE_DELAY_MS := by
    intro x
    have h1 := scheduleFuture_floor x now (some DAIKIN_DEVICE_WRITE_DELAY_MS)
    have h2 := scheduleFuture_next_ge x now (some DAIKIN_DEVICE_WRITE_DELAY_MS)
    rw [resolveBlockUntil_writeDelay] at h1
    exact ⟨by omega, h1⟩
  cases htok : s.token with
  | none => simp [putRequest, htok] at h
  | some tok =>
    cases o with
    | ok =>
      simp only [putRequest, htok, scheduleUpdate, if_neg Bool.false_ne_true,
        Bool.false_eq_true, if_false]
      constructor
      · exact (hbound _).1
      · exact updateNow_keeps_bound _ now2 _ (le_of_eq ((hbound _).2).symm)
    | httpError => simp [putRequest, htok] at h
    | transportError => simp [putRequest, htok] at h

/-- Witness for C3: a successful write from a state holding a token. -/
theorem write_settle_bound_witness :
    0 + DAIKIN_DEVICE_WRITE_DELAY_MS ≤
      (putRequest { baseState with token := some ⟨"t", 3600, "r"⟩ } 0 "d"
        ThermostatData.empty PutOutcome.ok).1.nextUpdateTimeMs ∧
    0 + DAIKIN_DEVICE_WRITE_DELAY_MS ≤
      (updateNow (putRequest { baseState with token := some ⟨"t", 3600, "r"⟩ } 0 "d"
        ThermostatData.empty PutOutcome.ok).1 1).nextUpdateTimeMs :=
  write_settle_bound { baseState with token := some ⟨"t", 3600, "r"⟩ } 0 "d"
    ThermostatData.empty PutOutcome.ok 1 rfl

/-- C10: an `updateNow()` call never modifies the `noUpdateBeforeMs`
floor — it is exactly the floor of the state before the call — while a
passive `scheduleFuture` re-entry always assigns the new floor
`now + blockUntilMs` (after clamping via `resolveBlockUntil`). -/
theorem updateNow_floor_frame (s : ApiState) (now : Int) (s2 : ApiState)
    (now2 : Int) (b : Option Int) :
    (updateNow s now).noUpdateBeforeMs = s.noUpdateBeforeMs ∧
    (scheduleFuture s2 now2 b).noUpdateBeforeMs = now2 + (resolveBlockUntil b).1 := by
  constructor
  · rw [updateNow_eq]
    exact scheduleAsap_floor s now
  · exact scheduleFuture_floor s2 now2 b

lemma scheduleFuture_devices (s : ApiState) (now : Int) (b : Option Int) :
    (scheduleFuture s now b).devices = s.devices := by
  unfold scheduleFuture updateIn
  dsimp only
  split <;> rfl

lemma scheduleFuture_pending (s : ApiState) (now : Int) (b : Option Int) :
    (scheduleFuture s now b).pendingThresholds = s.pendingThresholds := by
  unfold scheduleFuture updateIn
  dsimp only
  split <;> rfl

lemma putRequest_fail (s : ApiState) (now : Int) (deviceId : String)
    (body : ThermostatData) (o : PutOutcome) (ho : o ≠ PutOutcome.ok) :
    (putRequest s now deviceId body o).2.1 = false ∧
    (putRequest s now deviceId body o).1.devices = s.devices ∧
    (putRequest s now deviceId body o).1.pendingThresholds = s.pendingThresholds := by
  cases htok : s.token with
  | none => simp [putRequest, htok]
  | some tok => cases o with
    | ok => exact absurd rfl ho
    | httpError => simp [putRequest, htok]
    | transportError => simp [putRequest, htok]

lemma putRequest_pending (s : ApiState) (now : Int) (deviceId : String)
    (body : ThermostatData) (o : PutOutcome) :
    (putRequest s now deviceId body o).1.pendingThresholds = s.pendingThresholds := by
  cases htok : s.token with
  | none => simp [putRequest, htok]
  | some tok => cases o with
    | ok => simp [putRequest, htok, scheduleUpdate, scheduleFuture_pending]
    | httpError => simp [putRequest, htok]
    | transportError => simp [putRequest, htok]

lemma putRequest_reqs (s : ApiState) (now : Int) (deviceId : String)
    (body : ThermostatData) (o : PutOutcome) (tok : DaikinTokenResponse)
    (htok : s.token = some tok) :
    (putRequest s now deviceId body o).2.2 =
      [⟨HttpMethod.put, getDeviceUrl deviceId,
        some (tok.accessToken, s.tokenExpiration), some body⟩] := by
  cases o <;> simp [putRequest, htok]

lemma finishTargetTemps_fail (s : ApiState) (now : Int) (deviceId : String)
    (deviceData apiData cacheUpdate : ThermostatData) (o : PutOutcome)
    (ho : o ≠ PutOutcome.ok) :
    (finishTargetTemps s now deviceId deviceData apiData cacheUpdate o).2.1 = false ∧
    (finishTargetTemps s now deviceId deviceData apiData cacheUpdate o).1.devices =
      s.devices ∧
    (finishTargetTemps s now deviceId deviceData apiData cacheUpdate o).1.pendingThresholds =
      s.pendingThresholds := by
  unfold finishTargetTemps
  dsimp only
  split
  · have hf := putRequest_fail s now deviceId { apiData with schedOverride := some 1 } o ho
    rw [hf.1]
    simp only [Bool.false_eq_true, if_false]
    exact ⟨trivial, hf.2.1, hf.2.2⟩
  · have hf := putRequest_fail s now deviceId apiData o ho
    rw [hf.1]
    simp only [Bool.false_eq_true, if_false]
    exact ⟨trivial, hf.2.1, hf.2.2⟩

lemma finishTargetTemps_pending (s : ApiState) (now : Int) (deviceId : String)
    (deviceData apiData cacheUpdate : ThermostatData) (o : PutOutcome) :
    (finishTargetTemps s now deviceId deviceData apiData cacheUpdate o).1.pendingThresholds =
      s.pendingThresholds := by
  unfold finishTargetTemps
  dsimp only
  split <;> split <;> exact putRequest_pending s now deviceId _ o

lemma finishTargetTemps_reqs (s : ApiState) (now : Int) (deviceId : String)
    (deviceData apiData cacheUpdate : ThermostatData) (o : PutOutcome)
    (tok : DaikinTokenResponse) (htok : s.token = some tok) :
    (finishTargetTemps s now deviceId deviceData apiData cacheUpdate o).2.2 =
      [⟨HttpMethod.put, getDeviceUrl deviceId,
        some (tok.accessToken, s.tokenExpiration),
        some (if deviceData.schedEnabled = some true then
          { apiData with schedOverride := some 1 } else apiData)⟩] := by
  unfold finishTargetTemps
  dsimp only
  split <;> split <;> exact putRequest_reqs s now deviceId _ o tok htok

/-- C7: a temperature/threshold write against a device whose cached mode
is OFF is a silent no-op success: it returns `true`, issues no upstream
request, and leaves the whole bridge state (cache included) untouched. -/
theorem off_mode_write_noop (s : ApiState) (now : Int) (deviceId : String)
    (dd : ThermostatData) (targetTemp heatThreshold coolThreshold : Option Int)
    (o : PutOutcome)
    (hdata : dataOf s.devices deviceId = some dd)
    (hmode : dd.mode = some ThermostatMode.off) :
    setTargetTemps s now deviceId targetTemp heatThreshold coolThreshold o =
      (s, true, []) := by
  unfold setTargetTemps
  rw [hdata]
  dsimp only
  rw [hmode]

/-- Witness for C7 at a concrete cached device in OFF mode. -/
theorem off_mode_write_noop_witness :
    setTargetTemps
      { baseState with
        devices := [("d", some { ThermostatData.empty with mode := some ThermostatMode.off })] }
      0 "d" (some 25) (some 20) (some 26) PutOutcome.ok =
    ({ baseState with
        devices := [("d", some { ThermostatData.empty with mode := some ThermostatMode.off })] },
      true, []) :=
  off_mode_write_noop _ 0 "d" { ThermostatData.empty with mode := some ThermostatMode.off }
    (some 25) (some 20) (some 26) PutOutcome.ok rfl rfl

lemma setTargetTemps_first_heat (s : ApiState) (now : Int) (deviceId : String)
    (dd : ThermostatData) (hv : Int) (o : PutOutcome)
    (hdata : dataOf s.devices deviceId = some dd)
    (hmode : dd.mode = some ThermostatMode.auto)
    (hpend : s.pendingThresholds deviceId = none) :
    setTargetTemps s now deviceId none (some hv) none o =
      ({ s with pendingThresholds :=
          fun d => if d == deviceId then some ⟨some hv, none⟩
                   else s.pendingThresholds d }, true, []) := by
  simp only [setTargetTemps, hdata, hmode, hpend, truthy, Option.getD, Bool.false_eq_true, if_false]

lemma setTargetTemps_first_cool (s : ApiState) (now : Int) (deviceId : String)
    (dd : ThermostatData) (cv : Int) (o : PutOutcome)
    (hdata : dataOf s.devices deviceId = some dd)
    (hmode : dd.mode = some ThermostatMode.auto)
    (hpend : s.pendingThresholds deviceId = none) :
    setTargetTemps s now deviceId none none (some cv) o =
      ({ s with pendingThresholds :=
          fun d => if d == deviceId then some ⟨none, some cv⟩
                   else s.pendingThresholds d }, true, []) := by
  simp only [setTargetTemps, hdata, hmode, hpend, truthy, Option.getD, Bool.false_eq_true, if_false]

lemma setTargetTemps_complete_cool (s : ApiState) (now : Int) (deviceId : String)
    (dd : ThermostatData) (p : PendingThreshold) (ph cv : Int) (o : PutOutcome)
    (tok : DaikinTokenResponse)
    (hdata : dataOf s.devices deviceId = some dd)
    (hmode : dd.mode = some ThermostatMode.auto)
    (hpend : s.pendingThresholds deviceId = some p)
    (hheat : p.heat = some ph)
    (htok : s.token = some tok) :
    (setTargetTemps s now deviceId none none (some cv) o).2.2.length = 1 ∧
    (∀ req ∈ (setTargetTemps s now deviceId none none (some cv) o).2.2,
      ∃ b, req.putBody = some b ∧ b.hspHome = some ph ∧ b.cspHome = some cv) ∧
    (setTargetTemps s now deviceId none none (some cv) o).1.pendingThresholds deviceId =
      none := by
  have hred : setTargetTemps s now deviceId none none (some cv) o =
      finishTargetTemps
        { s with pendingThresholds :=
            fun d => if d == deviceId then none else s.pendingThresholds d }
        now deviceId dd
        { ThermostatData.empty with hspHome := some ph, cspHome := some cv }
        { ThermostatData.empty with
            hspHome := some ph, hspActive := some ph,
            cspHome := some cv, cspActive := some cv }
        o := by
    simp only [setTargetTemps, hdata, hmode, hpend, hheat, truthy, Option.getD, Bool.false_eq_true, if_false]
  rw [hred]
  refine ⟨?_, ?_, ?_⟩
  · rw [finishTargetTemps_reqs
      { s with pendingThresholds :=
          fun d => if d == deviceId then none else s.pendingThresholds d }
      now deviceId dd _ _ o tok htok]
    rfl
  · rw [finishTargetTemps_reqs
      { s with pendingThresholds :=
          fun d => if d == deviceId then none else s.pendingThresholds d }
      now deviceId dd _ _ o tok htok]
    intro req hreq
    simp only [List.mem_singleton] at hreq
    subst hreq
    split <;> exact ⟨_, rfl, rfl, rfl⟩
  · rw [finishTargetTemps_pending]
    simp

lemma setTargetTemps_complete_heat (s : ApiState) (now : Int) (deviceId : String)
    (dd : ThermostatData) (p : PendingThreshold) (pc hv : Int) (o : PutOutcome)
    (tok : DaikinTokenResponse)
    (hdata : dataOf s.devices deviceId = some dd)
    (hmode : dd.mode = some ThermostatMode.auto)
    (hpend : s.pendingThresholds deviceId = some p)
    (hcool : p.cool = some pc)
    (htok : s.token = some tok) :
    (setTargetTemps s now deviceId none (some hv) none o).2.2.length = 1 ∧
    (∀ req ∈ (setTargetTemps s now deviceId none (some hv) none o).2.2,
      ∃ b, req.putBody = some b ∧ b.hspHome = some hv ∧ b.cspHome = some pc) ∧
    (setTargetTemps s now deviceId none (some hv) none o).1.pendingThresholds deviceId =
      none := by
  have hred : setTargetTemps s now deviceId none (some hv) none o =
      finishTargetTemps
        { s with pendingThresholds :=
            fun d => if d == deviceId then none else s.pendingThresholds d }
        now deviceId dd
        { ThermostatData.empty with hspHome := some hv, cspHome := some pc }
        { ThermostatData.empty with
            hspHome := some hv, hspActive := some hv,
            cspHome := some pc, cspActive := some pc }
        o := by
    simp only [setTargetTemps, hdata, hmode, hpend, hcool, truthy, Option.getD, Bool.false_eq_true, if_false]
  rw [hred]
  refine ⟨?_, ?_, ?_⟩
  · rw [finishTargetTemps_reqs
      { s with pendingThresholds :=
          fun d => if d == deviceId then none else s.pendingThresholds d }
      now deviceId dd _ _ o tok htok]
    rfl
  · rw [finishTargetTemps_reqs
      { s with pendingThresholds :=
          fun d => if d == deviceId then none else s.pendingThresholds d }
      now deviceId dd _ _ o tok htok]
    intro req hreq
    simp only [List.mem_singleton] at hreq
    subst hreq
    split <;> exact ⟨_, rfl, rfl, rfl⟩
  · rw [finishTargetTemps_pending]
    simp

/-- C1: for a device cached in AUTO mode with an empty pending
accumulator, a solitary heat-threshold (resp. cool-threshold) write
issues no upstream request and returns `true`; the follow-up write
supplying the missing paired threshold issues exactly one upstream PUT
whose body carries both threshold values, and afterwards the per-device
pending accumulator is empty again. -/
theorem auto_threshold_pairing (s : ApiState) (now1 now2 : Int) (deviceId : String)
    (dd : ThermostatData) (tok : DaikinTokenResponse) (hv cv : Int)
    (o1 o2 : PutOutcome)
    (hdata : dataOf s.devices deviceId = some dd)
    (hmode : dd.mode = some ThermostatMode.auto)
    (hpend : s.pendingThresholds deviceId = none)
    (htok : s.token = some tok) :
    ((setTargetTemps s now1 deviceId none (some hv) none o1).2.1 = true ∧
     (setTargetTemps s now1 deviceId none (some hv) none o1).2.2 = [] ∧
     ((setTargetTemps (setTargetTemps s now1 deviceId none (some hv) none o1).1
        now2 deviceId none none (some cv) o2).2.2.length = 1 ∧
      (∀ req ∈ (setTargetTemps (setTargetTemps s now1 deviceId none (some hv) none o1).1
        now2 deviceId none none (some cv) o2).2.2,
        ∃ b, req.putBody = some b ∧ b.hspHome = some hv ∧ b.cspHome = some cv) ∧
      (setTargetTemps (setTargetTemps s now1 deviceId none (some hv) none o1).1
        now2 deviceId none none (some cv) o2).1.pendingThresholds deviceId = none)) ∧
    ((setTargetTemps s now1 deviceId none none (some cv) o1).2.1 = true ∧
     (setTargetTemps s now1 deviceId none none (some cv) o1).2.2 = [] ∧
     ((setTargetTemps (setTargetTemps s now1 deviceId none none (some cv) o1).1
        now2 deviceId none (some hv) none o2).2.2.length = 1 ∧
      (∀ req ∈ (setTargetTemps (setTargetTemps s now1 deviceId none none (some cv) o1).1
        now2 deviceId none (some hv) none o2).2.2,
        ∃ b, req.putBody = some b ∧ b.hspHome = some hv ∧ b.cspHome = some cv) ∧
      (setTargetTemps (setTargetTemps s now1 deviceId none none (some cv) o1).1
        now2 deviceId none (some hv) none o2).1.pendingThresholds deviceId = none)) := by
  constructor
  · rw [setTargetTemps_first_heat s now1 deviceId dd hv o1 hdata hmode hpend]
    refine ⟨rfl, rfl, ?_⟩
    exact setTargetTemps_complete_cool _ now2 deviceId dd ⟨some hv, none⟩ hv cv o2 tok
      hdata hmode (by simp) rfl htok
  · rw [setTargetTemps_first_cool s now1 deviceId dd cv o1 hdata hmode hpend]
    refine ⟨rfl, rfl, ?_⟩
    exact setTargetTemps_complete_heat _ now2 deviceId dd ⟨none, some cv⟩ cv hv o2 tok
      hdata hmode (by simp) rfl htok

/-- A concrete device snapshot in AUTO mode. -/
def autoData : ThermostatData :=
  { ThermostatData.empty with mode := some ThermostatMode.auto }

/-- A concrete bridge state holding a token and one AUTO-mode device. -/
def autoState : ApiState :=
  { baseState with
    token := some ⟨"t", 3600, "r"⟩,
    devices := [("d", some autoData)] }

/-- Witness for C1 at a concrete AUTO-mode device: the solitary heat
write returns `true`, and after the paired cool write the accumulator is
empty. -/
theorem auto_threshold_pairing_witness :
    (setTargetTemps autoState 0 "d" none (some 20) none PutOutcome.ok).2.1 = true ∧
    (setTargetTemps (setTargetTemps autoState 0 "d" none (some 20) none PutOutcome.ok).1
      1 "d" none none (some 26) PutOutcome.ok).1.pendingThresholds "d" = none :=
  ⟨(auto_threshold_pairing autoState 0 1 "d" autoData ⟨"t", 3600, "r"⟩ 20 26
      PutOutcome.ok PutOutcome.ok rfl rfl rfl rfl).1.1,
   (auto_threshold_pairing autoState 0 1 "d" autoData ⟨"t", 3600, "r"⟩ 20 26
      PutOutcome.ok PutOutcome.ok rfl rfl rfl rfl).1.2.2.2.2⟩

lemma setTargetTemps_fail (s : ApiState) (now : Int) (deviceId : String)
    (targetTemp heatThreshold coolThreshold : Option Int) (o : PutOutcome)
    (ho : o ≠ PutOutcome.ok)
    (hreq : (setTargetTemps s now deviceId targetTemp heatThreshold coolThreshold o).2.2 ≠ []) :
    (setTargetTemps s now deviceId targetTemp heatThreshold coolThreshold o).2.1 = false ∧
    (setTargetTemps s now deviceId targetTemp heatThreshold coolThreshold o).1.devices =
      s.devices := by
  unfold setTargetTemps at hreq ⊢
  rcases hdata : dataOf s.devices deviceId with _ | dd
  · rw [hdata] at hreq
    simp at hreq
  · rw [hdata] at hreq
    dsimp only at hreq ⊢
    rcases hmode : dd.mode with _ | m
    · rw [hmode] at hreq
      simp at hreq
    · rw [hmode] at hreq
      cases m
      case off => simp at hreq
      case unknownMode => simp at hreq
      case heat | cool | emergencyHeat =>
        rcases targetTemp with _ | t
        · simp at hreq
        · dsimp only at hreq ⊢
          by_cases h0 : t = 0
          · rw [if_pos h0] at hreq; simp at hreq
          · rw [if_neg h0] at hreq ⊢
            exact ⟨(finishTargetTemps_fail _ _ _ _ _ _ _ ho).1,
              (finishTargetTemps_fail _ _ _ _ _ _ _ ho).2.1⟩
      case auto =>
        cases htt : truthy targetTemp
        · rw [htt] at hreq
          simp only [Bool.false_eq_true, if_false] at hreq ⊢
          rcases hp0 : s.pendingThresholds deviceId with _ | ⟨ph, pc⟩ <;>
            rw [hp0] at hreq <;>
            simp only [Option.getD] at hreq ⊢ <;>
            rcases heatThreshold with _ | h' <;>
            rcases coolThreshold with _ | c' <;>
            dsimp only at hreq ⊢
          all_goals first
            | (simp at hreq; done)
            | exact ⟨(finishTargetTemps_fail _ _ _ _ _ _ _ ho).1,
                (finishTargetTemps_fail _ _ _ _ _ _ _ ho).2.1⟩
            | (rcases ph with _ | phv <;> rcases pc with _ | pcv <;>
                dsimp only at hreq ⊢ <;>
                first
                  | (simp at hreq; done)
                  | exact ⟨(finishTargetTemps_fail _ _ _ _ _ _ _ ho).1,
                      (finishTargetTemps_fail _ _ _ _ _ _ _ ho).2.1⟩)
        · rw [htt] at hreq
          simp at hreq

/-- A concrete bridge state holding a token and one COOL-mode device. -/
def coolState : ApiState :=
  { baseState with
    token := some ⟨"t", 3600, "r"⟩,
    devices := [("d", some { ThermostatData.empty with mode := some ThermostatMode.cool })] }

/-- Counterexample to C4: `setTargetState` updates the cached mode before
issuing the PUT, so when the PUT fails the setter returns `false` but the
device's cached state differs from its state before the call — the
no-optimistic-update-on-failure contract does not hold for every setter. -/
theorem setter_failure_cache_counterexample :
    (setTargetState coolState 0 "d" ThermostatMode.heat PutOutcome.httpError).2.1 = false ∧
    (setTargetState coolState 0 "d" ThermostatMode.heat PutOutcome.httpError).2.2 ≠ [] ∧
    (setTargetState coolState 0 "d" ThermostatMode.heat PutOutcome.httpError).1.devices ≠
      coolState.devices := by
  refine ⟨rfl, ?_, ?_⟩ <;> decide

/-- C4 amended: when a setter's upstream PUT fails (non-2xx or transport
error, with a request actually issued), the setter returns `false` and
leaves the device cache exactly as it was — except `setTargetState`,
which has already written the requested mode into the cache before the
PUT, so its cache afterwards equals the pre-call cache with the
requested mode merged in. -/
theorem setter_failure_cache (s : ApiState) (now : Int) (c : SetterCall)
    (o : PutOutcome) (ho : o ≠ PutOutcome.ok)
    (hreq : (runSetter s now c o).2.2 ≠ []) :
    (runSetter s now c o).2.1 = false ∧
    (runSetter s now c o).1.devices =
      (match c with
       | SetterCall.targetState d m =>
           updateCacheDevices s.devices d { ThermostatData.empty with mode := some m }
       | _ => s.devices) := by
  cases c with
  | targetTemps d tt ht ct => exact setTargetTemps_fail s now d tt ht ct o ho hreq
  | targetState d m =>
    have hf := putRequest_fail
      { s with devices := (updateCacheDevices s.devices d
          { ThermostatData.empty with mode := some m }) }
      now d { ThermostatData.empty with mode := some m } o ho
    exact ⟨hf.1, hf.2.1⟩
  | oneCleanFanActive d b => exact ⟨(putRequest_fail s now d _ o ho).1,
      (putRequest_fail s now d _ o ho).2.1⟩
  | circulateAirFanActive d b => exact ⟨(putRequest_fail s now d _ o ho).1,
      (putRequest_fail s now d _ o ho).2.1⟩
  | circulateAirFanSpeed d v =>
    dsimp only [runSetter, setCirculateAirFanSpeed]
    split <;> exact ⟨(putRequest_fail s now d _ o ho).1,
      (putRequest_fail s now d _ o ho).2.1⟩
  | displayUnits d v => exact ⟨(putRequest_fail s now d _ o ho).1,
      (putRequest_fail s now d _ o ho).2.1⟩
  | targetHumidity d v => exact ⟨(putRequest_fail s now d _ o ho).1,
      (putRequest_fail s now d _ o ho).2.1⟩
  | scheduleState d b =>
    dsimp only [runSetter, setScheduleState]
    split <;> exact ⟨(putRequest_fail s now d _ o ho).1,
      (putRequest_fail s now d _ o ho).2.1⟩
  | awayState d b e =>
    dsimp only [runSetter, setAwayState]
    split
    · exact ⟨(putRequest_fail s now d _ o ho).1, (putRequest_fail s now d _ o ho).2.1⟩
    · split <;> exact ⟨(putRequest_fail s now d _ o ho).1,
        (putRequest_fail s now d _ o ho).2.1⟩

/-- Witness for the amended C4: a failing humidity write from a state
holding a token leaves the cache untouched and reports failure. -/
theorem setter_failure_cache_witness :
    (runSetter coolState 0 (SetterCall.targetHumidity "d" 40)
      PutOutcome.httpError).2.1 = false ∧
    (runSetter coolState 0 (SetterCall.targetHumidity "d" 40)
      PutOutcome.httpError).1.devices = coolState.devices :=
  setter_failure_cache coolState 0 (SetterCall.targetHumidity "d" 40)
    PutOutcome.httpError (by decide) (by decide)

/-- A concrete bridge state with a leftover partial pending heat
threshold for device `d`. -/
def pendingState : ApiState :=
  { coolState with
    pendingThresholds := fun d => if d == "d" then some ⟨some 20, none⟩ else none }

/-- Counterexample to C6: an unrelated successful write (here a mode
write through `setTargetState`) does not clear the pending-threshold
accumulator — the partial heat threshold is still present afterwards, so
the accumulator does persist across an unrelated write. -/
theorem pending_persists_counterexample :
    (runSetter pendingState 0 (SetterCall.targetState "d" ThermostatMode.heat)
      PutOutcome.ok).2.1 = true ∧
    (runSetter pendingState 0 (SetterCall.targetState "d" ThermostatMode.heat)
      PutOutcome.ok).1.pendingThresholds "d" = some ⟨some 20, none⟩ := by
  exact ⟨rfl, rfl⟩

/-- C6 amended: the per-device accumulator is created by the first
partial threshold write in AUTO mode, and is cleared when the paired
threshold arrives and the merged request is issued; every setter other
than `setTargetTemps` leaves the accumulator entirely unchanged — so a
leftover partial entry survives unrelated writes (no unrelated write
reads or clears it). -/
theorem pending_accumulator_lifecycle :
    (∀ (s : ApiState) (now : Int) (deviceId : String) (dd : ThermostatData)
       (hv : Int) (o : PutOutcome),
       dataOf s.devices deviceId = some dd →
       dd.mode = some ThermostatMode.auto →
       s.pendingThresholds deviceId = none →
       (setTargetTemps s now deviceId none (some hv) none o).1.pendingThresholds
         deviceId = some ⟨some hv, none⟩) ∧
    (∀ (s : ApiState) (now : Int) (deviceId : String) (dd : ThermostatData)
       (p : PendingThreshold) (ph cv : Int) (o : PutOutcome) (tok : DaikinTokenResponse),
       dataOf s.devices deviceId = some dd →
       dd.mode = some ThermostatMode.auto →
       s.pendingThresholds deviceId = some p →
       p.heat = some ph →
       s.token = some tok →
       (setTargetTemps s now deviceId none none (some cv) o).1.pendingThresholds
         deviceId = none) ∧
    (∀ (s : ApiState) (now : Int) (c : SetterCall) (o : PutOutcome),
       c.isTargetTemps = false →
       (runSetter s now c o).1.pendingThresholds = s.pendingThresholds) := by
  refine ⟨?_, ?_, ?_⟩
  · intro s now deviceId dd hv o hdata hmode hpend
    rw [setTargetTemps_first_heat s now deviceId dd hv o hdata hmode hpend]
    simp
  · intro s now deviceId dd p ph cv o tok hdata hmode hpend hheat htok
    exact (setTargetTemps_complete_cool s now deviceId dd p ph cv o tok
      hdata hmode hpend hheat htok).2.2
  · intro s now c o hc
    cases c with
    | targetTemps d tt ht ct => simp [SetterCall.isTargetTemps] at hc
    | targetState d m => exact putRequest_pending _ now d _ o
    | oneCleanFanActive d b => exact putRequest_pending s now d _ o
    | circulateAirFanActive d b => exact putRequest_pending s now d _ o
    | circulateAirFanSpeed d v =>
      dsimp only [runSetter, setCirculateAirFanSpeed]
      split <;> exact putRequest_pending s now d _ o
    | displayUnits d v => exact putRequest_pending s now d _ o
    | targetHumidity d v => exact putRequest_pending s now d _ o
    | scheduleState d b =>
      dsimp only [runSetter, setScheduleState]
      split <;> exact putRequest_pending s now d _ o
    | awayState d b e =>
      dsimp only [runSetter, setAwayState]
      split
      · exact putRequest_pending s now d _ o
      · split <;> exact putRequest_pending s now d _ o

/-- Witness for the amended C6: concrete creation of the accumulator by
a partial heat write, and a concrete unrelated write leaving the
accumulator map unchanged. -/
theorem pending_accumulator_lifecycle_witness :
    (setTargetTemps autoState 0 "d" none (some 20) none PutOutcome.ok).1.pendingThresholds
      "d" = some ⟨some 20, none⟩ ∧
    (runSetter coolState 0 (SetterCall.targetHumidity "d" 40)
      PutOutcome.ok).1.pendingThresholds = coolState.pendingThresholds :=
  ⟨pending_accumulator_lifecycle.1 autoState 0 "d" autoData 20 PutOutcome.ok rfl rfl rfl,
   pending_accumulator_lifecycle.2.2 coolState 0 (SetterCall.targetHumidity "d" 40)
     PutOutcome.ok rfl⟩

/-- A concrete bridge state caching out-of-range raw attribute values. -/
def rawState : ApiState :=
  { baseState with
    devices := [("d", some { ThermostatData.empty with
      humIndoor := some 150, aqIndoorValue := some 900 })] }

/-- Counterexample to C8: the `DaikinApi` accessors themselves do not
clamp — a raw indoor humidity of 150 is returned as 150 (outside
`[0, 100]`) and a raw air-quality value of 900 is returned as 900
(outside `[0, 500]`). -/
theorem accessor_clamp_counterexample :
    getCurrentHumidity rawState "d" = 150 ∧
    ¬ getCurrentHumidity rawState "d" ≤ 100 ∧
    getAirQualityValue rawState "d" true = some 900 := by
  refine ⟨rfl, by decide, rfl⟩

/-- C8 amended: the raw-range clamping lives in the platform
characteristic handlers, not in the `DaikinApi` accessors: for every
cache content the humidity handler returns a value in `[0, 100]`, and
whenever the air-quality handler returns a value it lies in `[0, 500]`. -/
theorem handler_clamp (s : ApiState) (deviceId : String) (forIndoor : Bool) :
    (0 ≤ handleHumidityGet s deviceId forIndoor ∧
     handleHumidityGet s deviceId forIndoor ≤ 100) ∧
    (∀ w : Int, handleAirQualityValueGet s deviceId forIndoor = some w →
      0 ≤ w ∧ w ≤ 500) := by
  constructor
  · unfold handleHumidityGet
    dsimp only
    constructor <;> (split <;> omega)
  · intro w hw
    unfold handleAirQualityValueGet at hw
    rcases haq : getAirQualityValue s deviceId forIndoor with _ | v <;> rw [haq] at hw
    · exact absurd hw (by simp)
    · dsimp only at hw
      have : (if v < 0 then (0 : Int) else if v > 500 then 500 else v) = w :=
        Option.some.inj hw
      subst this
      constructor <;> (split <;> omega)

/-- Witness for the amended C8: the clamped handlers at the concrete
out-of-range cache. -/
theorem handler_clamp_witness :
    (0 ≤ handleHumidityGet rawState "d" true ∧
     handleHumidityGet rawState "d" true ≤ 100) ∧
    (0 ≤ (500 : Int) ∧ (500 : Int) ≤ 500) :=
  ⟨(handler_clamp rawState "d" true).1,
   (handler_clamp rawState "d" true).2 500 rfl⟩

/-- A concrete bridge state whose stored token expiry is already in the
past. -/
def expiredState : ApiState :=
  { baseState with
    token := some ⟨"t", 3600, "r"⟩,
    tokenExpiration := 0,
    devices := [("d", some ThermostatData.empty)] }

/-- Counterexample to C5: `putRequest` performs no expiry check, so at
time 5000 a write goes out carrying the credential whose stored expiry
instant 0 is before the current time — an HTTP request is issued with a
known-expired credential. -/
theorem expired_credential_counterexample :
    (putRequest expiredState 5000 "d" ThermostatData.empty PutOutcome.ok).2.2 =
      [⟨HttpMethod.put, getDeviceUrl "d", some ("t", 0), some ThermostatData.empty⟩] ∧
    (0 : Int) ≤ 5000 := by
  exact ⟨rfl, by decide⟩

lemma refreshToken_reqs (s : ApiState) (now : Int)
    (lr rr : Option DaikinTokenResponse) :
    (refreshToken s now lr rr).2 = [loginRequest] ∨
    (refreshToken s now lr rr).2 = [refreshRequest] := by
  unfold refreshToken getToken
  rcases hst : s.token with _ | tk
  · rcases lr with _ | t <;> simp
  · dsimp only
    split
    · rcases lr with _ | t <;> simp
    · rcases rr with _ | t <;> simp

/-- C5 amended: only the read path guards the credential: when the
stored expiry has passed, `getRequest` first runs the
refresh-or-reacquire step (its first issued request is an
unauthenticated POST), and when no credential exists after that step it
aborts without issuing the GET.  The write path checks only that some
credential exists — `putRequest` with no token aborts with `false` and
issues nothing, but any write request it does issue simply carries the
stored credential and its stored expiry, with no expiry check. -/
theorem credential_check_amended :
    (∀ (s : ApiState) (now : Int) (uri : String)
       (lr rr : Option DaikinTokenResponse) (fr : Option ThermostatData),
       s.tokenExpiration ≤ now →
       ∃ r, (getRequest s now uri lr rr fr).2.2.head? = some r ∧
         r.method = HttpMethod.post ∧ r.bearer = none) ∧
    (∀ (s : ApiState) (now : Int) (uri : String)
       (lr rr : Option DaikinTokenResponse) (fr : Option ThermostatData),
       (getRequest s now uri lr rr fr).1.token = none →
       ∀ r ∈ (getRequest s now uri lr rr fr).2.2, r.method ≠ HttpMethod.get) ∧
    (∀ (s : ApiState) (now : Int) (deviceId : String) (body : ThermostatData)
       (o : PutOutcome), s.token = none →
       (putRequest s now deviceId body o).2.1 = false ∧
       (putRequest s now deviceId body o).2.2 = []) ∧
    (∀ (s : ApiState) (now : Int) (deviceId : String) (body : ThermostatData)
       (o : PutOutcome) (r : IssuedRequest),
       r ∈ (putRequest s now deviceId body o).2.2 →
       ∃ tok, s.token = some tok ∧
         r.bearer = some (tok.accessToken, s.tokenExpiration)) := by
  refine ⟨?_, ?_, ?_, ?_⟩
  · intro s now uri lr rr fr hexp
    unfold getRequest
    rw [if_pos hexp]
    dsimp only
    rcases ht1 : (refreshToken s now lr rr).1.token with _ | tk <;>
      rcases refreshToken_reqs s now lr rr with h | h <;>
      rw [h] <;>
      first
        | exact ⟨loginRequest, rfl, rfl, rfl⟩
        | exact ⟨refreshRequest, rfl, rfl, rfl⟩
  · intro s now uri lr rr fr hnone r hr
    unfold getRequest at hnone hr
    dsimp only at hnone hr
    by_cases hexp : s.tokenExpiration ≤ now
    · rw [if_pos hexp] at hnone hr
      rcases ht1 : (refreshToken s now lr rr).1.token with _ | tk
      · simp only [ht1] at hr
        rcases refreshToken_reqs s now lr rr with h | h <;> rw [h] at hr <;>
          simp only [List.mem_singleton] at hr <;> subst hr <;> decide
      · simp [ht1] at hnone
    · rw [if_neg hexp] at hnone hr
      dsimp only at hnone hr
      rcases hst : s.token with _ | tk
      · rw [hst] at hr
        simp at hr
      · simp [hst] at hnone
  · intro s now deviceId body o h
    constructor <;> simp [putRequest, h]
  · intro s now deviceId body o r hr
    rcases hst : s.token with _ | tok
    · simp [putRequest, hst] at hr
    · rw [putRequest_reqs s now deviceId body o tok hst] at hr
      simp only [List.mem_singleton] at hr
      subst hr
      exact ⟨tok, rfl, rfl⟩

/-- Witness for the amended C5: the refresh step runs for an expired
read, and a tokenless write aborts without issuing anything. -/
theorem credential_check_amended_witness :
    (∃ r, (getRequest expiredState 5000 DAIKIN_API_DEVICES_URL none none
        (none : Option ThermostatData)).2.2.head? = some r ∧
      r.method = HttpMethod.post ∧ r.bearer = none) ∧
    ((putRequest baseState 0 "d" ThermostatData.empty PutOutcome.ok).2.1 = false ∧
     (putRequest baseState 0 "d" ThermostatData.empty PutOutcome.ok).2.2 = []) :=
  ⟨credential_check_amended.1 expiredState 5000 DAIKIN_API_DEVICES_URL none none
     none (by decide),
   credential_check_amended.2.2.1 baseState 0 "d" ThermostatData.empty
     PutOutcome.ok rfl⟩

/-- A concrete already-initialized bridge state with one cached device. -/
def initDoneState : ApiState :=
  { baseState with
    token := some ⟨"t", 3600, "r"⟩,
    tokenExpiration := 999999,
    initDone := true,
    devices := [("d", some ThermostatData.empty)] }

/-- Counterexample to C9: calling the initialisation routine while
`isInitDone` is already `true` is not a no-op — it re-authenticates
(issues requests) and, when the device-list fetch fails, replaces the
populated device registry with an empty one. -/
theorem apiInit_counterexample :
    isInitDone initDoneState = true ∧
    (apiInit initDoneState 0 (some ⟨"t2", 3600, "r2"⟩) none none
      (fun _ => none)).1.devices = [] ∧
    initDoneState.devices ≠ [] ∧
    (apiInit initDoneState 0 (some ⟨"t2", 3600, "r2"⟩) none none
      (fun _ => none)).2 ≠ [] := by
  refine ⟨rfl, rfl, by decide, by decide⟩

/-- C9 amended: the initialisation routine is not guarded by the
initialized flag — on every call, initialized or not, it begins by
issuing the login request and re-runs authentication, discovery and the
first read. -/
theorem apiInit_always_reauthenticates (s : ApiState) (now : Int)
    (lr rr : Option DaikinTokenResponse)
    (dr : Option (List (String × Option ThermostatData)))
    (da : String → Option ThermostatData) :
    (apiInit s now lr rr dr da).2.head? = some loginRequest := by
  unfold apiInit getToken
  rcases lr with _ | t
  · dsimp only
    rcases hst : s.token with _ | tk
    · rfl
    · split <;> first | rfl | (split <;> rfl)
  · dsimp only [setToken]
    split <;> rfl

end DaikinOnePlus
